import Mathlib

/-!
# Verification of `sew.py`

A shallow embedding of the `Sew` threading-decorator library
(`src/sew.py`) and proofs about its eight public entry points.

Modelling choices:

* A Python value is `PyVal` (the fragment needed here: `None`, numbers,
  strings, booleans).  A raised exception is `PyExc`.
* A target function (the function being decorated) is `PyFunc σ α`:
  applied to its bound argument tuple (type `α`) and the current memory
  state (type `σ`), it yields the state after its side effects together
  with either a returned value (`Except.ok`) or a raised exception
  (`Except.error`), plus a wall-clock execution `duration` in seconds.
* `Thread`, `Timer`, `FunctionThreadWithReturnValue` and
  `DelayedFunctionWithReturnValue` mirror `threading.Thread`,
  `threading.Timer` and the two private subclasses in `sew.py`.
  Each `run` is translated from the corresponding Python `run` body
  (CPython's `Timer.run` waits `interval` seconds on the `finished`
  event, then — if not cancelled — calls its stored function).
  A `run` yields a `UnitRun`: the unit object after running (with its
  Result Slot possibly written), the state after the target's side
  effects, the elapsed wall-clock time, and a trace of events in the
  order the run body performs them.  An exception raised by the target
  escapes the run body and is swallowed by the thread runtime, so it
  never appears in the caller-facing interface.
* Each wrapper's inner `call` closure is translated as a function from
  the argument tuple and the pre-call state to a `CallResult`: the value
  the wrapper returns to the caller, the caller-visible state at the
  moment the wrapper returns, the wall-clock time the caller spends
  blocked inside the wrapper, whether the wrapper joins the background
  unit, and the background unit it constructed.  `start()` followed by
  `join()` means the unit's run body completes before the wrapper
  returns, so those wrappers thread the run's state/time through to the
  caller; `start()` without `join()` returns control at once, so the
  caller-visible state and blocked time are the pre-call ones.
  All wrappers are total functions into `CallResult`: no exception of
  the target ever propagates to the caller.
-/

namespace Sew

/-- A Python exception object (abstract: only identity matters here). -/
structure PyExc where
  msg : String
deriving DecidableEq, Repr

/-- The fragment of Python values the embedding needs.  `PyVal.none`
is Python's `None`, which is both the Result Slot's empty sentinel and
a legitimate return value. -/
inductive PyVal where
  | none
  | num (q : ℚ)
  | str (s : String)
  | bool (b : Bool)
deriving DecidableEq, Repr

/-- A target function with its argument tuple type `α` and memory-state
type `σ`: applying it transforms the state and either returns a value or
raises, and takes `duration` seconds of wall-clock time. -/
structure PyFunc (σ α : Type) where
  app : α → σ → σ × Except PyExc PyVal
  duration : ℚ

/-- Events performed by a background unit's run body, in order. -/
inductive TraceEvent where
  | waitDelay (d : ℚ)
  | invokeTimerFunction
  | invokeTarget
  | writeSlot (v : PyVal)
deriving DecidableEq, Repr

/-- The outcome of a background unit's run body: the unit afterwards,
the state after the target's side effects, elapsed wall-clock seconds,
and the trace of events the run body performed. -/
structure UnitRun (σ υ : Type) where
  unit : υ
  state : σ
  elapsed : ℚ
  trace : List TraceEvent

/-- `threading.Thread(target=function, args=args, kwargs=kwargs)`:
the Call Descriptor plus the daemon flag. -/
structure Thread (σ α : Type) where
  target : PyFunc σ α
  args : α
  daemon : Bool

/-- A plain thread's run body: invoke the target.  A raised exception
escapes into the thread runtime (swallowed); side effects up to the
raise remain visible. -/
def Thread.run (t : Thread σ α) (s : σ) : UnitRun σ (Thread σ α) :=
  { unit := t
    state := (t.target.app t.args s).1
    elapsed := t.target.duration
    trace := [TraceEvent.invokeTarget] }

/-- `threading.Timer(interval, function, args, kwargs)`: like a thread
but its run body first waits `interval` seconds on the `finished` event
(`cancel()` sets the event; it is never used by this library). -/
structure Timer (σ α : Type) where
  interval : ℚ
  function : PyFunc σ α
  args : α
  finished : Bool
  daemon : Bool

/-- CPython `Timer.run`: `finished.wait(interval)` — which returns
immediately for a non-positive timeout, hence `max interval 0` — then,
if not cancelled, call the stored function, then set `finished`. -/
def Timer.run (t : Timer σ α) (s : σ) : UnitRun σ (Timer σ α) :=
  if t.finished then
    { unit := t, state := s, elapsed := 0, trace := [] }
  else
    { unit := { t with finished := true }
      state := (t.function.app t.args s).1
      elapsed := max t.interval 0 + t.function.duration
      trace := [TraceEvent.waitDelay t.interval, TraceEvent.invokeTimerFunction] }

/-- `_FunctionThreadWithReturnValue`: a thread subclass holding the Call
Descriptor in `call` (the source's `self._call`) and the Result Slot in
`return_value`. -/
structure FunctionThreadWithReturnValue (σ α : Type) where
  call : PyFunc σ α × α
  return_value : PyVal

/-- `_FunctionThreadWithReturnValue.__init__`: store the Call Descriptor
and initialize the Result Slot to `None`. -/
def FunctionThreadWithReturnValue.init (function : PyFunc σ α) (args : α) :
    FunctionThreadWithReturnValue σ α :=
  { call := (function, args), return_value := PyVal.none }

/-- `_FunctionThreadWithReturnValue.run`: unpack the Call Descriptor,
invoke the target and write its result to the Result Slot.  If the
target raises, the assignment never executes: the slot keeps its
previous value and the exception is swallowed by the thread runtime. -/
def FunctionThreadWithReturnValue.run (t : FunctionThreadWithReturnValue σ α)
    (s : σ) : UnitRun σ (FunctionThreadWithReturnValue σ α) :=
  match t.call.1.app t.call.2 s with
  | (s1, Except.ok v) =>
      { unit := { t with return_value := v }
        state := s1
        elapsed := t.call.1.duration
        trace := [TraceEvent.invokeTarget, TraceEvent.writeSlot v] }
  | (s1, Except.error _) =>
      { unit := t
        state := s1
        elapsed := t.call.1.duration
        trace := [TraceEvent.invokeTarget] }

/-- The `lambda: None` passed by `_DelayedFunctionWithReturnValue` to
the base `Timer` constructor: a pure, instantaneous noop. -/
def noopLambda (σ : Type) : PyFunc σ Unit :=
  { app := fun _ s => (s, Except.ok PyVal.none), duration := 0 }

/-- `_DelayedFunctionWithReturnValue`: a `Timer` subclass whose base
timer is constructed with `super().__init__(seconds, lambda: None)`,
holding the real Call Descriptor in `call` and the Result Slot in
`return_value`. -/
structure DelayedFunctionWithReturnValue (σ α : Type) extends Timer σ Unit where
  call : PyFunc σ α × α
  return_value : PyVal

/-- `_DelayedFunctionWithReturnValue.__init__`: base timer gets the
delay and the noop lambda; the Call Descriptor is stored and the Result
Slot initialized to `None`. -/
def DelayedFunctionWithReturnValue.init (seconds : ℚ) (function : PyFunc σ α)
    (args : α) : DelayedFunctionWithReturnValue σ α :=
  { interval := seconds
    function := noopLambda σ
    args := ()
    finished := false
    daemon := false
    call := (function, args)
    return_value := PyVal.none }

/-- `_DelayedFunctionWithReturnValue.run`: `super().run()` first (the
base timer's elapsed-delay firing logic), then unpack the Call
Descriptor, invoke the target and write the Result Slot.  As with the
thread subclass, a raised target exception skips the slot write. -/
def DelayedFunctionWithReturnValue.run (t : DelayedFunctionWithReturnValue σ α)
    (s : σ) : UnitRun σ (DelayedFunctionWithReturnValue σ α) :=
  let base := Timer.run t.toTimer s
  match t.call.1.app t.call.2 base.state with
  | (s1, Except.ok v) =>
      { unit := { t with toTimer := base.unit, return_value := v }
        state := s1
        elapsed := base.elapsed + t.call.1.duration
        trace := base.trace ++ [TraceEvent.invokeTarget, TraceEvent.writeSlot v] }
  | (s1, Except.error _) =>
      { unit := { t with toTimer := base.unit }
        state := s1
        elapsed := base.elapsed + t.call.1.duration
        trace := base.trace ++ [TraceEvent.invokeTarget] }

/-- What one invocation of a decorated wrapper looks like to its caller:
the value the wrapper returns, the caller-visible state and the
wall-clock time spent blocked when the wrapper returns, whether the
wrapper joined the background unit, and the unit it constructed. -/
structure CallResult (σ υ : Type) where
  ret : PyVal
  state : σ
  blockedFor : ℚ
  joins : Bool
  unit : υ

/-- `thread(function)`: the inner `call` constructs a plain thread from
the Call Descriptor and starts it; no join, no return statement.  The
caller regains control immediately with `None`. -/
def thread (function : PyFunc σ α) : α → σ → CallResult σ (Thread σ α) :=
  fun args s =>
    let t : Thread σ α := { target := function, args := args, daemon := false }
    { ret := PyVal.none, state := s, blockedFor := 0, joins := false, unit := t }

/-- `thread_join(function)`: construct, start and join a plain thread;
the target completes (side effects included) before the wrapper
returns, and its return value is discarded. -/
def thread_join (function : PyFunc σ α) : α → σ → CallResult σ (Thread σ α) :=
  fun args s =>
    let t : Thread σ α := { target := function, args := args, daemon := false }
    let r := Thread.run t s
    { ret := PyVal.none, state := r.state, blockedFor := r.elapsed,
      joins := true, unit := r.unit }

/-- `thread_daemon(function)`: like `thread` but `thread.daemon = True`
is set before starting. -/
def thread_daemon (function : PyFunc σ α) : α → σ → CallResult σ (Thread σ α) :=
  fun args s =>
    let t : Thread σ α := { target := function, args := args, daemon := true }
    { ret := PyVal.none, state := s, blockedFor := 0, joins := false, unit := t }

/-- `thread_with_return_value(function)`: construct a
`_FunctionThreadWithReturnValue`, start it and join it.  The source's
inner `call` body then ends without a `return` statement, so the
wrapper hands `None` back to the caller — the captured
`return_value` field is never read. -/
def thread_with_return_value (function : PyFunc σ α) :
    α → σ → CallResult σ (FunctionThreadWithReturnValue σ α) :=
  fun args s =>
    let t := FunctionThreadWithReturnValue.init function args
    let r := FunctionThreadWithReturnValue.run t s
    { ret := PyVal.none, state := r.state, blockedFor := r.elapsed,
      joins := true, unit := r.unit }

/-- `delay(seconds)(function)`: construct a `threading.Timer` with the
given delay — passed through unchanged, with no validation — and start
it; no join, no return statement. -/
def delay (seconds : ℚ) (function : PyFunc σ α) : α → σ → CallResult σ (Timer σ α) :=
  fun args s =>
    let t : Timer σ α := { interval := seconds, function := function,
                           args := args, finished := false, daemon := false }
    { ret := PyVal.none, state := s, blockedFor := 0, joins := false, unit := t }

/-- `delay_join(seconds)(function)`: construct, start and join the
timer: the delay elapses and the target completes before the wrapper
returns; the return value is discarded. -/
def delay_join (seconds : ℚ) (function : PyFunc σ α) :
    α → σ → CallResult σ (Timer σ α) :=
  fun args s =>
    let t : Timer σ α := { interval := seconds, function := function,
                           args := args, finished := false, daemon := false }
    let r := Timer.run t s
    { ret := PyVal.none, state := r.state, blockedFor := r.elapsed,
      joins := true, unit := r.unit }

/-- `delay_daemon(seconds)(function)`: like `delay` but
`function_timer.daemon = True` is set before starting. -/
def delay_daemon (seconds : ℚ) (function : PyFunc σ α) :
    α → σ → CallResult σ (Timer σ α) :=
  fun args s =>
    let t : Timer σ α := { interval := seconds, function := function,
                           args := args, finished := false, daemon := true }
    { ret := PyVal.none, state := s, blockedFor := 0, joins := false, unit := t }

/-- `delay_with_return_value(seconds)(function)`: construct a
`_DelayedFunctionWithReturnValue` (delay passed through unchanged),
start it, join it, and — unlike `thread_with_return_value` — return
`function_timer.return_value` to the caller. -/
def delay_with_return_value (seconds : ℚ) (function : PyFunc σ α) :
    α → σ → CallResult σ (DelayedFunctionWithReturnValue σ α) :=
  fun args s =>
    let t := DelayedFunctionWithReturnValue.init seconds function args
    let r := DelayedFunctionWithReturnValue.run t s
    { ret := r.unit.return_value, state := r.state, blockedFor := r.elapsed,
      joins := true, unit := r.unit }

/-- Number of Result Slot writes recorded in a trace. -/
def slotWrites (tr : List TraceEvent) : Nat :=
  (tr.filter fun e => match e with
    | TraceEvent.writeSlot _ => true
    | _ => false).length

/-- The value the target's outcome would put in the Result Slot: the
returned value on normal termination, the untouched `None` sentinel on
a raise. -/
def slotOf (o : Except PyExc PyVal) : PyVal :=
  match o with
  | Except.ok v => v
  | Except.error _ => PyVal.none

/-- `square(x) = x * x`, the spec's concrete example target. -/
def square : PyFunc Unit ℚ :=
  { app := fun x _ => ((), Except.ok (PyVal.num (x * x))), duration := 0 }

/-- A target that raises unconditionally, with no side effect. -/
def faulty : PyFunc Unit Unit :=
  { app := fun _ _ => ((), Except.error { msg := "boom" }), duration := 0 }

/-- A target that returns `None` normally, with no side effect. -/
def returnsNone : PyFunc Unit Unit :=
  { app := fun _ _ => ((), Except.ok PyVal.none), duration := 0 }

/-- C1: the claim that the wrapper produced by `thread_with_return_value`
returns the target's value to the caller fails on the code: on the
spec's own example `square(7) = 49` the background unit's Result Slot
does hold `49` after the join, but the wrapper's inner `call` has no
`return` statement, so the caller receives `None`, not `49`. -/
theorem C1_thread_with_return_value_drops_result :
    (thread_with_return_value square 7 ()).unit.return_value = PyVal.num 49 ∧
    (thread_with_return_value square 7 ()).ret = PyVal.none ∧
    PyVal.none ≠ PyVal.num 49 := by
  refine ⟨?_, rfl, by decide⟩
  show PyVal.num (7 * 7) = PyVal.num 49
  norm_num

/-- C2: for every function and argument tuple, the wrapper produced by
`thread_with_return_value` returns `None` to the caller — the inner
`call` joins the thread but contains no return statement, so the
captured `return_value` field is never handed back. -/
theorem C2_thread_with_return_value_returns_none
    (function : PyFunc σ α) (args : α) (s : σ) :
    (thread_with_return_value function args s).ret = PyVal.none := rfl

/-- C3: for every delay `d ≥ 0` and target that terminates normally
(taking nonnegative time), the wrapper produced by
`delay_with_return_value d` blocks the caller for at least `d` seconds
and returns the target's result. -/
theorem C3_delay_with_return_value_blocks_and_returns
    (d : ℚ) (function : PyFunc σ α) (args : α) (s s1 : σ) (v : PyVal)
    (hd : 0 ≤ d) (hdur : 0 ≤ function.duration)
    (happ : function.app args s = (s1, Except.ok v)) :
    (delay_with_return_value d function args s).ret = v ∧
    d ≤ (delay_with_return_value d function args s).blockedFor := by
  constructor
  · simp [delay_with_return_value, DelayedFunctionWithReturnValue.run,
      DelayedFunctionWithReturnValue.init, Timer.run, noopLambda, happ]
  · simp only [delay_with_return_value, DelayedFunctionWithReturnValue.run,
      DelayedFunctionWithReturnValue.init, Timer.run, noopLambda, happ,
      Bool.false_eq_true, if_false]
    rw [max_eq_left hd]
    linarith [hdur]

/-- C4: a target that raises never propagates the exception to the
caller of a capturing wrapper (the wrappers are total functions into
`CallResult`); the Result Slot is never overwritten and both capturing
wrappers return the empty `None` sentinel. -/
theorem C4_capturing_swallows_exceptions
    (d : ℚ) (function : PyFunc σ α) (args : α) (s s1 : σ) (e : PyExc)
    (happ : function.app args s = (s1, Except.error e)) :
    (thread_with_return_value function args s).ret = PyVal.none ∧
    (thread_with_return_value function args s).unit.return_value = PyVal.none ∧
    (delay_with_return_value d function args s).ret = PyVal.none ∧
    (delay_with_return_value d function args s).unit.return_value = PyVal.none := by
  refine ⟨rfl, ?_, ?_, ?_⟩ <;>
    simp [thread_with_return_value, delay_with_return_value,
      FunctionThreadWithReturnValue.run, FunctionThreadWithReturnValue.init,
      DelayedFunctionWithReturnValue.run, DelayedFunctionWithReturnValue.init,
      Timer.run, noopLambda, happ]

/-- C4 witness: instantiated at the unconditionally raising target. -/
theorem C4_witness :
    faulty.app () () = ((), Except.error { msg := "boom" }) ∧
    ((thread_with_return_value faulty () ()).ret = PyVal.none ∧
     (thread_with_return_value faulty () ()).unit.return_value = PyVal.none ∧
     (delay_with_return_value 1 faulty () ()).ret = PyVal.none ∧
     (delay_with_return_value 1 faulty () ()).unit.return_value = PyVal.none) :=
  ⟨rfl, C4_capturing_swallows_exceptions 1 faulty () () () { msg := "boom" } rfl⟩

/-- C3 witness: `delay_with_return_value 1 square 7` returns `49` after
blocking at least 1 second. -/
theorem C3_witness :
    (0 : ℚ) ≤ 1 ∧ (0 : ℚ) ≤ square.duration ∧
    square.app 7 () = ((), Except.ok (PyVal.num 49)) ∧
    ((delay_with_return_value 1 square 7 ()).ret = PyVal.num 49 ∧
     (1 : ℚ) ≤ (delay_with_return_value 1 square 7 ()).blockedFor) := by
  have happ : square.app 7 () = ((), Except.ok (PyVal.num 49)) := by
    show ((), Except.ok (PyVal.num (7 * 7))) = ((), Except.ok (PyVal.num 49))
    norm_num
  exact ⟨by norm_num, le_refl 0, happ,
    C3_delay_with_return_value_blocks_and_returns 1 square 7 () ()
      (PyVal.num 49) (by norm_num) (le_refl 0) happ⟩

/-- C5: the run body of `_DelayedFunctionWithReturnValue` first performs
the base timer's elapsed-delay firing logic (wait the delay, fire the
timer's own function slot) and only afterwards invokes the target and
writes the Result Slot: the capture steps are appended after the base
timer's trace, which is preserved whole, not substituted. -/
theorem C5_delayed_capture_appended_after_timer_firing
    (d : ℚ) (function : PyFunc σ α) (args : α) (s : σ) :
    (Timer.run (DelayedFunctionWithReturnValue.init d function args).toTimer s).trace
      = [TraceEvent.waitDelay d, TraceEvent.invokeTimerFunction] ∧
    (DelayedFunctionWithReturnValue.run
        (DelayedFunctionWithReturnValue.init d function args) s).trace
      = [TraceEvent.waitDelay d, TraceEvent.invokeTimerFunction] ++
        (TraceEvent.invokeTarget ::
          match (function.app args s).2 with
          | Except.ok v => [TraceEvent.writeSlot v]
          | Except.error _ => []) := by
  rcases h : function.app args s with ⟨s2, o2⟩
  cases o2 <;>
    simp [DelayedFunctionWithReturnValue.run, DelayedFunctionWithReturnValue.init,
      Timer.run, noopLambda, h]

/-- C6: the Result Slot of each capturing Background Unit is initialized
to the `None` sentinel at creation, its run body writes it at most once
(exactly when the target returns normally, with the returned value),
and the capturing wrappers leave the slot at exactly the value dictated
by the target's outcome — no other operation writes it. -/
theorem C6_result_slot_invariant
    (d : ℚ) (function : PyFunc σ α) (args : α) (s : σ) :
    (FunctionThreadWithReturnValue.init function args).return_value = PyVal.none ∧
    (DelayedFunctionWithReturnValue.init d function args).return_value = PyVal.none ∧
    slotWrites (FunctionThreadWithReturnValue.run
      (FunctionThreadWithReturnValue.init function args) s).trace ≤ 1 ∧
    slotWrites (DelayedFunctionWithReturnValue.run
      (DelayedFunctionWithReturnValue.init d function args) s).trace ≤ 1 ∧
    (thread_with_return_value function args s).unit.return_value
      = slotOf (function.app args s).2 ∧
    (delay_with_return_value d function args s).unit.return_value
      = slotOf (function.app args s).2 := by
  rcases h : function.app args s with ⟨s1, o⟩
  cases o <;>
    simp [FunctionThreadWithReturnValue.run, FunctionThreadWithReturnValue.init,
      DelayedFunctionWithReturnValue.run, DelayedFunctionWithReturnValue.init,
      Timer.run, noopLambda, thread_with_return_value, delay_with_return_value,
      slotWrites, slotOf, h]

/-- C7: the fire-and-forget and daemon wrappers never join their
background unit and never block: the caller regains control after zero
wall-clock time, in its pre-call state, receiving `None` — regardless
of the target's return value or whether it raises (the wrappers are
total into `CallResult`, so no exception reaches the caller). -/
theorem C7_fire_and_forget_never_blocks
    (d : ℚ) (function : PyFunc σ α) (args : α) (s : σ) :
    ((thread function args s).joins = false ∧
     (thread function args s).blockedFor = 0 ∧
     (thread function args s).ret = PyVal.none ∧
     (thread function args s).state = s) ∧
    ((thread_daemon function args s).joins = false ∧
     (thread_daemon function args s).blockedFor = 0 ∧
     (thread_daemon function args s).ret = PyVal.none ∧
     (thread_daemon function args s).state = s ∧
     (thread_daemon function args s).unit.daemon = true) ∧
    ((delay d function args s).joins = false ∧
     (delay d function args s).blockedFor = 0 ∧
     (delay d function args s).ret = PyVal.none ∧
     (delay d function args s).state = s) ∧
    ((delay_daemon d function args s).joins = false ∧
     (delay_daemon d function args s).blockedFor = 0 ∧
     (delay_daemon d function args s).ret = PyVal.none ∧
     (delay_daemon d function args s).state = s ∧
     (delay_daemon d function args s).unit.daemon = true) :=
  ⟨⟨rfl, rfl, rfl, rfl⟩, ⟨rfl, rfl, rfl, rfl, rfl⟩,
   ⟨rfl, rfl, rfl, rfl⟩, ⟨rfl, rfl, rfl, rfl, rfl⟩⟩

/-- C8: the joined non-capturing wrappers block the caller until the
target has fully completed — the caller-visible state on return is the
state after all of the target's side effects, and the caller was
blocked for the full run time (delay included for the timer variant) —
and the target's return value is discarded: the wrapper returns `None`. -/
theorem C8_join_variants_block_until_complete
    (d : ℚ) (function : PyFunc σ α) (args : α) (s : σ) :
    ((thread_join function args s).joins = true ∧
     (thread_join function args s).state = (function.app args s).1 ∧
     (thread_join function args s).blockedFor = function.duration ∧
     (thread_join function args s).ret = PyVal.none) ∧
    ((delay_join d function args s).joins = true ∧
     (delay_join d function args s).state = (function.app args s).1 ∧
     (delay_join d function args s).blockedFor = max d 0 + function.duration ∧
     (delay_join d function args s).ret = PyVal.none) := by
  constructor <;>
    simp [thread_join, delay_join, Thread.run, Timer.run]

/-- C9: every delayed-variant factory passes the supplied seconds value
unchanged to the constructed timer's `interval` — the theorem holds for
every rational `d`, negative ones included, and each factory is a total
function, so the library itself never validates or rejects the value;
the last conjunct shows what the runtime layer then does with a
malformed (negative) delay: its wait clamps to `max d 0`, a behavior of
the underlying timer, not a distinguished library error. -/
theorem C9_delay_seconds_passed_unchanged
    (d : ℚ) (function : PyFunc σ α) (args : α) (s : σ) :
    (delay d function args s).unit.interval = d ∧
    (delay_join d function args s).unit.interval = d ∧
    (delay_daemon d function args s).unit.interval = d ∧
    (delay_with_return_value d function args s).unit.interval = d ∧
    (Timer.run (delay d function args s).unit s).elapsed
      = max d 0 + function.duration := by
  rcases h : function.app args s with ⟨s1, o⟩
  cases o <;>
    simp [delay, delay_join, delay_daemon, delay_with_return_value,
      DelayedFunctionWithReturnValue.run, DelayedFunctionWithReturnValue.init,
      Timer.run, noopLambda, h]

/-- C10: the Result Slot's empty sentinel is the very value `None` that
a target may legitimately return: the slot starts at `None`, and the
caller-visible result of `delay_with_return_value` for a target that
returns `None` normally is identical to the result for a target that
raises — a caller cannot distinguish a normal `None` return from a
swallowed failure. -/
theorem C10_none_return_indistinguishable_from_raise
    (d : ℚ) (f g : PyFunc σ α) (args : α) (s s1 s2 : σ) (e : PyExc)
    (hf : f.app args s = (s1, Except.ok PyVal.none))
    (hg : g.app args s = (s2, Except.error e)) :
    (FunctionThreadWithReturnValue.init f args).return_value = PyVal.none ∧
    (DelayedFunctionWithReturnValue.init d f args).return_value = PyVal.none ∧
    (delay_with_return_value d f args s).ret
      = (delay_with_return_value d g args s).ret ∧
    (delay_with_return_value d f args s).ret = PyVal.none := by
  refine ⟨rfl, rfl, ?_, ?_⟩ <;>
    simp [delay_with_return_value, DelayedFunctionWithReturnValue.run,
      DelayedFunctionWithReturnValue.init, Timer.run, noopLambda, hf, hg]

/-- C10 witness: a target returning `None` and a raising target yield
the same caller-visible result. -/
theorem C10_witness :
    returnsNone.app () () = ((), Except.ok PyVal.none) ∧
    faulty.app () () = ((), Except.error { msg := "boom" }) ∧
    ((FunctionThreadWithReturnValue.init returnsNone ()).return_value = PyVal.none ∧
     (DelayedFunctionWithReturnValue.init 1 returnsNone ()).return_value = PyVal.none ∧
     (delay_with_return_value 1 returnsNone () ()).ret
       = (delay_with_return_value 1 faulty () ()).ret ∧
     (delay_with_return_value 1 returnsNone () ()).ret = PyVal.none) :=
  ⟨rfl, rfl, C10_none_return_indistinguishable_from_raise 1 returnsNone faulty
    () () () () { msg := "boom" } rfl rfl⟩

end Sew
